import Mathlib

/-
Verification of the NL-to-NoSQL retrieval-and-rerank pipeline of the
NaiveRAG HR bot.  The development shallowly embeds the query-engine
modules:

  src/query_engine/nl2noSql_query.py        (ResumeRetriever)
  src/query_engine/nosql_answer_generator.py (AnswerGenerator)
  src/query_engine/nosql_pipeline.py         (NoSQLQueryPipeline)

External effects are passed in explicitly: each awaited language-model
call is a value of type Except String String (ok = returned text,
error = raised exception), the Python json.loads function is a
parameter of type String -> Option Json (none = raised ValueError),
the MongoDB find call is a parameter returning Except, and the Python
str() conversion used on ObjectId values is a parameter of type
Json -> String.  Python string methods are modelled on character lists
so that every definition computes by reduction.
-/

namespace HRBot

/-- Values produced by the Python function json.loads: null, booleans,
numbers, strings, arrays and objects.  Numbers are modelled as integers,
which covers every value the pipeline inspects structurally. -/
inductive Json where
  | null
  | bool (b : Bool)
  | num (n : Int)
  | str (s : String)
  | arr (xs : List Json)
  | obj (kvs : List (String × Json))
  deriving Repr

mutual

/-- Python equality on JSON values, structural.  Object comparison is
keywise in order; the pipeline only ever compares strings, where this
coincides exactly with Python ==. -/
def jsonBeq : Json → Json → Bool
  | .null, .null => true
  | .bool a, .bool b => a == b
  | .num a, .num b => a == b
  | .str a, .str b => a == b
  | .arr xs, .arr ys => jsonBeqList xs ys
  | .obj xs, .obj ys => jsonBeqObj xs ys
  | _, _ => false

/-- Elementwise jsonBeq on lists. -/
def jsonBeqList : List Json → List Json → Bool
  | [], [] => true
  | x :: xs, y :: ys => jsonBeq x y && jsonBeqList xs ys
  | _, _ => false

/-- Pairwise jsonBeq on key-value lists. -/
def jsonBeqObj : List (String × Json) → List (String × Json) → Bool
  | [], [] => true
  | (k1, v1) :: xs, (k2, v2) :: ys => k1 == k2 && jsonBeq v1 v2 && jsonBeqObj xs ys
  | _, _ => false

end

/-- A Python dict with string keys, as held by resume records retrieved
from MongoDB and by parsed JSON objects.  Dicts produced by json.loads
or by MongoDB have unique keys; lookup takes the first binding. -/
abbrev PyDict := List (String × Json)

/-- Dictionary subscript access res[k], none when the key is missing
(where Python raises KeyError). -/
def dictGet? (d : PyDict) (k : String) : Option Json :=
  (d.find? (fun kv => kv.1 == k)).map (fun kv => kv.2)

/-- Dictionary access d.get(k, v) with a default value. -/
def dictGetD (d : PyDict) (k : String) (v : Json) : Json :=
  (dictGet? d k).getD v

/-- Dictionary update as performed by a double-splat merge: the value at
an existing key is replaced in place, a missing key is appended. -/
def dictSet (d : PyDict) (k : String) (v : Json) : PyDict :=
  if (d.find? (fun kv => kv.1 == k)).isSome then
    d.map (fun kv => if kv.1 == k then (k, v) else kv)
  else d ++ [(k, v)]

/-- Test that the pattern list is a prefix of the second list. -/
def isPrefixOfChars : List Char → List Char → Bool
  | [], _ => true
  | _ :: _, [] => false
  | p :: ps, c :: cs => p == c && isPrefixOfChars ps cs

/-- Test that t occurs as a contiguous substring of s, as the Python
expression t in s does for strings. -/
def containsSub (s t : List Char) : Bool :=
  s.tails.any (fun suffix => isPrefixOfChars t suffix)

/-- The Python membership test v in container.  Membership in a list
compares elements with ==, membership in a string is a substring test
(requiring the left operand to be a string), membership in a dict tests
the keys; numbers and null are not iterable and raise TypeError, which
the embedding returns as an error. -/
def pyIn (v : Json) : Json → Except String Bool
  | .arr xs => .ok (xs.any (fun x => jsonBeq x v))
  | .str s =>
    match v with
    | .str t => .ok (containsSub s.data t.data)
    | _ => .error "TypeError: in string requires string operand"
  | .obj kvs =>
    match v with
    | .str t => .ok (kvs.any (fun kv => kv.1 == t))
    | .arr _ => .error "TypeError: unhashable type"
    | .obj _ => .error "TypeError: unhashable type"
    | _ => .ok false
  | _ => .error "TypeError: argument is not iterable"

/-- The attribute call parsed.get(k, default): defined on dicts, raises
AttributeError on every other JSON value (lists, strings, numbers). -/
def pyGet (parsed : Json) (k : String) (default : Json) : Except String Json :=
  match parsed with
  | .obj kvs => .ok (dictGetD kvs k default)
  | _ => .error "AttributeError: object has no attribute get"

/-- Python str.startswith on character lists. -/
def startswith (s pre : List Char) : Bool := isPrefixOfChars pre s

/-- Python str.endswith on character lists. -/
def endswith (s suf : List Char) : Bool := isPrefixOfChars suf.reverse s.reverse

/-- Leading-whitespace removal, one side of Python str.strip. -/
def lstripChars : List Char → List Char
  | [] => []
  | c :: cs => if c.isWhitespace then lstripChars cs else c :: cs

/-- Python str.strip: removes leading and trailing whitespace. -/
def stripChars (s : List Char) : List Char :=
  (lstripChars (lstripChars s.reverse).reverse)

/-- Python slicing suffix removal, the [:-n] part of a [a:-n] slice. -/
def dropRightChars (n : Nat) (l : List Char) : List Char :=
  l.take (l.length - n)

/-- Character-list body of clean_llm_response below. -/
def clean_chars (text : List Char) : List Char :=
  let cleaned := stripChars text
  if startswith cleaned "```json".data && endswith cleaned "```".data then
    stripChars (dropRightChars 3 (cleaned.drop 7))
  else if startswith cleaned "```".data && endswith cleaned "```".data then
    stripChars (dropRightChars 3 (cleaned.drop 3))
  else cleaned

/-- Embeds clean_llm_response, identical in AnswerGenerator
(nosql_answer_generator.py lines 57-63) and ResumeRetriever
(nl2noSql_query.py lines 65-71): strip surrounding whitespace, then
remove a wrapping code fence, preferring the json-tagged form (slice
[7:-3]) over the plain form (slice [3:-3]), stripping again after
removal.  String methods are modelled on character lists so that the
definition computes by kernel reduction. -/
def clean_llm_response (text : String) : String :=
  ⟨clean_chars text.data⟩

/-- Embeds the list comprehension of nosql_answer_generator.py line 122,
relevant = [r for r in resumes if r["name"] in relevant_names]:
subscript access raises KeyError on a record without a name field and
the membership test may raise TypeError; either exception aborts the
whole comprehension, which the enclosing try of rerank_resumes turns
into the identity fallback. -/
def filterByNames (relevant_names : Json) : List PyDict → Except String (List PyDict)
  | [] => .ok []
  | r :: rest =>
    match dictGet? r "name" with
    | none => .error "KeyError: name"
    | some nv =>
      match pyIn nv relevant_names with
      | .error e => .error e
      | .ok keep =>
        match filterByNames relevant_names rest with
        | .error e => .error e
        | .ok tail => .ok (if keep then r :: tail else tail)

/-- Body of the try block of AnswerGenerator.rerank_resumes
(nosql_answer_generator.py lines 110-128): await the model call, strip
code fences, parse with json.loads, read relevant_names and
irrelevant_names with .get (default empty list, AttributeError when the
parse result is not a dict; irrelevant_names is only logged), then
filter the candidate list by name membership in relevant_names. -/
def rerankAttempt (callResult : Except String String)
    (jsonLoads : String → Option Json)
    (resumes : List PyDict) : Except String (List PyDict) :=
  match callResult with
  | .error e => .error e
  | .ok response_raw =>
    match jsonLoads (clean_llm_response response_raw) with
    | none => .error "json.JSONDecodeError"
    | some parsed =>
      match pyGet parsed "relevant_names" (Json.arr []) with
      | .error e => .error e
      | .ok relevant_names =>
        match pyGet parsed "irrelevant_names" (Json.arr []) with
        | .error e => .error e
        | .ok _irrelevant_names =>
          filterByNames relevant_names resumes

/-- Embeds AnswerGenerator.rerank_resumes (nosql_answer_generator.py
lines 65-131): on any exception inside the try block the except branch
returns the input list resumes unchanged. -/
def rerank_resumes (callResult : Except String String)
    (jsonLoads : String → Option Json)
    (resumes : List PyDict) : List PyDict :=
  match rerankAttempt callResult jsonLoads resumes with
  | .ok relevant => relevant
  | .error _ => resumes

/-- Embeds ResumeRetriever.extract_keywords (nl2noSql_query.py lines
73-170).  stage1Call is the outcome of the first (primary extraction)
model call; stage2Call is the outcome of the second (expansion) call as
a function of the primary keyword list it is prompted with; jsonLoads
models json.loads.  Stage 1 call failure, parse failure, or a non-list
parse yields the empty list; after a successful Stage 1, any Stage 2
failure (call, parse, or non-list parse) falls back to the primary
list, and a successful Stage 2 returns its parsed list. -/
def extract_keywords (stage1Call : Except String String)
    (stage2Call : List Json → Except String String)
    (jsonLoads : String → Option Json) : List Json :=
  match stage1Call with
  | .error _ => []
  | .ok raw1 =>
    match jsonLoads (clean_llm_response raw1) with
    | none => []
    | some (Json.arr primary_keywords) =>
      (match stage2Call primary_keywords with
       | .error _ => primary_keywords
       | .ok raw2 =>
         match jsonLoads (clean_llm_response raw2) with
         | none => primary_keywords
         | some (Json.arr final_keywords) => final_keywords
         | some _ => primary_keywords)
    | some _ => []

/-- One regex condition of the Mongo filter, the dict
field : regex pattern with options, as appended by
build_mongo_query. -/
structure RegexCond where
  field : String
  pattern : Json
  options : String
  deriving Repr

/-- A MongoDB find filter as built by build_mongo_query: either the
empty filter (the empty dict) or a disjunction of regex conditions
under the or operator. -/
inductive MongoFilter where
  | empty
  | orFilter (conds : List RegexCond)
  deriving Repr

/-- The fixed field list of ResumeRetriever.build_mongo_query
(nl2noSql_query.py lines 176-180). -/
def fields : List String :=
  ["name", "summary", "skills", "projects.description", "projects.title",
   "experience.description", "experience.title", "experience.company",
   "education.institution", "certifications.title", "certifications.issuer"]

/-- Embeds ResumeRetriever.build_mongo_query (nl2noSql_query.py lines
173-188): one case-insensitive regex condition per keyword and field,
keywords outermost, collected into a disjunction; the empty condition
list yields the empty filter. -/
def build_mongo_query (keywords : List Json) : MongoFilter :=
  let or_conditions :=
    keywords.flatMap (fun kw => fields.map (fun field => RegexCond.mk field kw "i"))
  if or_conditions.isEmpty then .empty else .orFilter or_conditions

/-- MongoDB semantics of a find filter, used to interpret a
StructuredFilter against a candidate record: the empty filter places no
constraint and matches every document, and a disjunction matches a
document when at least one of its conditions does.  Per-condition regex
matching is kept abstract as the parameter condMatch. -/
def matchesFilter (condMatch : RegexCond → PyDict → Bool) :
    MongoFilter → PyDict → Bool
  | .empty, _ => true
  | .orFilter conds, doc => conds.any (fun c => condMatch c doc)

/-- The dict returned by ResumeRetriever.search (nl2noSql_query.py
lines 193-215): keys query, keywords, matched, and an error entry
present only on the empty-keyword abort. -/
structure SearchResult where
  query : String
  keywords : List Json
  matched : List PyDict
  error : Option String
  deriving Repr

/-- Embeds the comprehension of nl2noSql_query.py lines 212-214,
matched = [{**res, "_id": str(res["_id"])} for res in results]:
each record has its object id replaced by its str() image (pyStr models
Python str); a record without an id key would raise KeyError. -/
def stringifyIds (pyStr : Json → String) : List PyDict → Except String (List PyDict)
  | [] => .ok []
  | res :: rest =>
    match dictGet? res "_id" with
    | none => .error "KeyError: _id"
    | some idv =>
      match stringifyIds pyStr rest with
      | .error e => .error e
      | .ok tail => .ok (dictSet res "_id" (Json.str (pyStr idv)) :: tail)

/-- Embeds ResumeRetriever.search (nl2noSql_query.py lines 190-215).
find models the MongoDB find call on the built filter (error = raised
exception, e.g. a server-selection timeout); it is not wrapped in any
try block, so its exception propagates.  An empty keyword list
short circuits to an error-tagged result with empty matched list
without touching the store. -/
def search (q : String) (stage1Call : Except String String)
    (stage2Call : List Json → Except String String)
    (jsonLoads : String → Option Json)
    (find : MongoFilter → Except String (List PyDict))
    (pyStr : Json → String) : Except String SearchResult :=
  if (extract_keywords stage1Call stage2Call jsonLoads).isEmpty then
    .ok ⟨q, [], [], some "Keyword extraction failed"⟩
  else
    match find (build_mongo_query (extract_keywords stage1Call stage2Call jsonLoads)) with
    | .error e => .error e
    | .ok results =>
      match stringifyIds pyStr results with
      | .error e => .error e
      | .ok matched => .ok ⟨q, extract_keywords stage1Call stage2Call jsonLoads, matched, none⟩

/-- Embeds AnswerGenerator.generate_answer (nosql_answer_generator.py
lines 133-195): the model call result is returned as the answer, and a
raised exception is converted into a diagnostic string carrying the
exception text. -/
def generate_answer (callResult : Except String String) : String :=
  match callResult with
  | .ok response => response
  | .error e => "⚠️ Generation failed: " ++ e

/-- Embeds NoSQLQueryPipeline.run (nosql_pipeline.py lines 22-40).
rerankCall and genCall are the outcomes of the reranking and synthesis
model calls as functions of the candidate lists they are prompted with.
An exception escaping search propagates out of run; an empty matched
list returns the fixed diagnostic; otherwise the candidates are
reranked and the synthesized answer (or its failure diagnostic) is
returned. -/
def run (q : String) (stage1Call : Except String String)
    (stage2Call : List Json → Except String String)
    (jsonLoads : String → Option Json)
    (find : MongoFilter → Except String (List PyDict))
    (pyStr : Json → String)
    (rerankCall : List PyDict → Except String String)
    (genCall : List PyDict → Except String String) : Except String String :=
  match search q stage1Call stage2Call jsonLoads find pyStr with
  | .error e => .error e
  | .ok result =>
    if result.matched.isEmpty then
      .ok "No resumes retrieved for the given query."
    else
      .ok (generate_answer
        (genCall (rerank_resumes (rerankCall result.matched) jsonLoads result.matched)))

/-! Helper lemmas about the reranker. -/

/-- A successful name-filter pass returns a subsequence of its input. -/
theorem filterByNames_sublist (rel : Json) :
    ∀ (l out : List PyDict), filterByNames rel l = .ok out → out.Sublist l := by
  intro l
  induction l with
  | nil =>
    intro out h
    simp only [filterByNames] at h
    cases h
    exact List.Sublist.refl _
  | cons r rest ih =>
    intro out h
    cases hn : dictGet? r "name" with
    | none => simp [filterByNames, hn] at h
    | some nv =>
      cases hk : pyIn nv rel with
      | error e => simp [filterByNames, hn, hk] at h
      | ok keep =>
        cases ht : filterByNames rel rest with
        | error e => simp [filterByNames, hn, hk, ht] at h
        | ok tail =>
          simp only [filterByNames, hn, hk, ht] at h
          cases h
          cases keep with
          | true => simpa using List.Sublist.cons₂ r (ih tail ht)
          | false => simpa using List.Sublist.cons r (ih tail ht)

/-- A record whose name value fails the membership test against the
relevant_names value is absent from any successful filter result. -/
theorem filterByNames_excludes (rel nv : Json) (r : PyDict)
    (hname : dictGet? r "name" = some nv)
    (hfalse : pyIn nv rel = .ok false) :
    ∀ (l out : List PyDict), filterByNames rel l = .ok out → r ∉ out := by
  intro l
  induction l with
  | nil =>
    intro out h
    simp only [filterByNames] at h
    cases h
    simp
  | cons x rest ih =>
    intro out h
    cases hn : dictGet? x "name" with
    | none => simp [filterByNames, hn] at h
    | some nx =>
      cases hk : pyIn nx rel with
      | error e => simp [filterByNames, hn, hk] at h
      | ok keep =>
        cases ht : filterByNames rel rest with
        | error e => simp [filterByNames, hn, hk, ht] at h
        | ok tail =>
          simp only [filterByNames, hn, hk, ht] at h
          cases h
          have htail : r ∉ tail := ih tail ht
          cases keep with
          | false => simpa using htail
          | true =>
            simp only [if_pos trivial, reduceIte]
            intro hmem
            rcases List.mem_cons.mp hmem with hrx | hrt
            · subst hrx
              rw [hname] at hn
              injection hn with hnv
              rw [hnv] at hfalse
              rw [hfalse] at hk
              injection hk with hb
              exact Bool.noConfusion hb
            · exact htail hrt

/-- A successful try block of rerank_resumes is a successful name
filter for the parsed relevant_names value. -/
theorem rerankAttempt_ok_filter (c : Except String String)
    (j : String → Option Json) (resumes out : List PyDict)
    (h : rerankAttempt c j resumes = .ok out) :
    ∃ rel, filterByNames rel resumes = .ok out := by
  cases c with
  | error e => simp [rerankAttempt] at h
  | ok raw =>
    cases hp : j (clean_llm_response raw) with
    | none => simp [rerankAttempt, hp] at h
    | some parsed =>
      cases parsed with
      | obj kvs => exact ⟨_, by simpa [rerankAttempt, hp, pyGet] using h⟩
      | null => simp [rerankAttempt, hp, pyGet] at h
      | bool b => simp [rerankAttempt, hp, pyGet] at h
      | num n => simp [rerankAttempt, hp, pyGet] at h
      | str s => simp [rerankAttempt, hp, pyGet] at h
      | arr xs => simp [rerankAttempt, hp, pyGet] at h

/-- C10: for every candidate sequence and every reranker response, the
output of rerank_resumes is a subsequence of the input sequence: it
preserves relative order and multiplicity, never reordering or
duplicating candidates, in both the success branch (an in-place filter)
and the fallback branch (the input itself). -/
theorem rerank_sublist_of_input (c : Except String String)
    (j : String → Option Json) (resumes : List PyDict) :
    (rerank_resumes c j resumes).Sublist resumes := by
  unfold rerank_resumes
  cases h : rerankAttempt c j resumes with
  | error e => exact List.Sublist.refl _
  | ok out =>
    obtain ⟨rel, hf⟩ := rerankAttempt_ok_filter c j resumes out h
    exact filterByNames_sublist rel resumes out hf

/-- C8: for every query and candidate record sequence, every record in
the output of rerank_resumes is a record of the input sequence; no new
record is introduced, in both the success and the fallback branch. -/
theorem rerank_subset_of_input (c : Except String String)
    (j : String → Option Json) (resumes : List PyDict) (r : PyDict)
    (hr : r ∈ rerank_resumes c j resumes) : r ∈ resumes := by
  revert hr
  unfold rerank_resumes
  cases h : rerankAttempt c j resumes with
  | error e => exact id
  | ok out =>
    intro hr
    obtain ⟨rel, hf⟩ := rerankAttempt_ok_filter c j resumes out h
    exact (filterByNames_sublist rel resumes out hf).subset hr

/-- Witness for C8 at a concrete input: the sole record of a
one-element candidate list is returned by the fallback branch and is a
record of the input. -/
theorem rerank_subset_of_input_witness :
    [("name", Json.str "A")] ∈ ([[("name", Json.str "A")]] : List PyDict) :=
  rerank_subset_of_input (Except.error "boom") (fun _ => none)
    [[("name", Json.str "A")]] [("name", Json.str "A")] (by simp [rerank_resumes, rerankAttempt])

/-- C4: if the reranker model call raises, or its response after
code-fence stripping does not parse as JSON, rerank_resumes returns
exactly its input candidate list. -/
theorem rerank_identity_fallback (c : Except String String)
    (j : String → Option Json) (resumes : List PyDict)
    (h : (∃ e, c = .error e) ∨
         ∃ raw, c = .ok raw ∧ j (clean_llm_response raw) = none) :
    rerank_resumes c j resumes = resumes := by
  rcases h with ⟨e, rfl⟩ | ⟨raw, rfl, hp⟩
  · rfl
  · simp [rerank_resumes, rerankAttempt, hp]

/-- Witness for C4 at concrete inputs: a raising call and the malformed
response "not json" each return all 3 input candidates unchanged. -/
theorem rerank_identity_fallback_witness :
    rerank_resumes (Except.error "boom") (fun _ => none)
      [[("name", Json.str "A")], [("name", Json.str "B")], [("name", Json.str "C")]]
      = [[("name", Json.str "A")], [("name", Json.str "B")], [("name", Json.str "C")]]
    ∧ rerank_resumes (Except.ok "not json") (fun _ => none)
      [[("name", Json.str "A")], [("name", Json.str "B")], [("name", Json.str "C")]]
      = [[("name", Json.str "A")], [("name", Json.str "B")], [("name", Json.str "C")]] :=
  ⟨rerank_identity_fallback _ _ _ (Or.inl ⟨"boom", rfl⟩),
   rerank_identity_fallback _ _ _ (Or.inr ⟨"not json", rfl, rfl⟩)⟩

/-- C1 counterexample: a candidate whose name appears in neither the
parsed relevant_names list nor the parsed irrelevant_names list is
dropped from the reranker output, not included: with relevant_names
containing only Bob and irrelevant_names only Carol, the sole candidate
Alice is classified in neither list yet the output is empty. -/
theorem rerank_drops_unclassified_name :
    rerank_resumes (Except.ok "resp")
      (fun _ => some (Json.obj
        [("relevant_names", Json.arr [Json.str "Bob"]),
         ("irrelevant_names", Json.arr [Json.str "Carol"])]))
      [[("name", Json.str "Alice")]] = []
    ∧ pyIn (Json.str "Alice") (Json.arr [Json.str "Bob"]) = Except.ok false
    ∧ pyIn (Json.str "Alice") (Json.arr [Json.str "Carol"]) = Except.ok false :=
  ⟨rfl, rfl, rfl⟩

/-- C1 amended: whenever the reranker response parses as a JSON object
and the name filter completes without an exception, a candidate whose
name value passes the membership test against neither the parsed
relevant_names value nor the parsed irrelevant_names value is excluded
from the reranker output: unclassified names are dropped, not kept. -/
theorem rerank_unclassified_excluded (raw : String) (j : String → Option Json)
    (resumes out : List PyDict) (kvs : List (String × Json)) (r : PyDict) (nv : Json)
    (hparse : j (clean_llm_response raw) = some (Json.obj kvs))
    (hname : dictGet? r "name" = some nv)
    (hrel : pyIn nv (dictGetD kvs "relevant_names" (Json.arr [])) = .ok false)
    (_hirr : pyIn nv (dictGetD kvs "irrelevant_names" (Json.arr [])) = .ok false)
    (hfilter : filterByNames (dictGetD kvs "relevant_names" (Json.arr [])) resumes
        = .ok out) :
    rerank_resumes (Except.ok raw) j resumes = out ∧ r ∉ out := by
  refine ⟨?_, filterByNames_excludes _ nv r hname hrel resumes out hfilter⟩
  simp [rerank_resumes, rerankAttempt, hparse, pyGet, hfilter]

/-- Witness for the amended C1 at a concrete input: with relevant_names
containing only Bob, the unclassified candidate Alice is excluded and
only Bob survives. -/
theorem rerank_unclassified_excluded_witness :
    rerank_resumes (Except.ok "resp")
      (fun _ => some (Json.obj
        [("relevant_names", Json.arr [Json.str "Bob"]),
         ("irrelevant_names", Json.arr [])]))
      [[("name", Json.str "Alice")], [("name", Json.str "Bob")]]
      = [[("name", Json.str "Bob")]]
    ∧ [("name", Json.str "Alice")] ∉ ([[("name", Json.str "Bob")]] : List PyDict) :=
  rerank_unclassified_excluded "resp" _ _ _
    [("relevant_names", Json.arr [Json.str "Bob"]), ("irrelevant_names", Json.arr [])]
    [("name", Json.str "Alice")] (Json.str "Alice") rfl rfl rfl rfl rfl

/-! Keyword extraction and query construction. -/

/-- A stage of extract_keywords fails when its model call raises, when
the cleaned response does not parse as JSON, or when it parses to a
non-array value. -/
def stageFails (call : Except String String) (j : String → Option Json) : Prop :=
  (∃ e, call = .error e) ∨
  ∃ raw, call = .ok raw ∧
    (j (clean_llm_response raw) = none ∨
     ∃ v, j (clean_llm_response raw) = some v ∧ ∀ xs, v ≠ Json.arr xs)

/-- C7: if Stage 1 succeeds with a JSON array of primary terms and
Stage 2 then fails (call exception, parse error, or non-array parse),
extract_keywords returns the Stage 1 primary list unchanged; if Stage 1
itself fails, extract_keywords returns the empty list whatever the
Stage 2 oracle would answer, so Stage 2 is never attempted. -/
theorem extract_keywords_failure_policy (s1 : Except String String)
    (s2 : List Json → Except String String) (j : String → Option Json) :
    (∀ raw1 primary, s1 = .ok raw1 →
      j (clean_llm_response raw1) = some (Json.arr primary) →
      stageFails (s2 primary) j →
      extract_keywords s1 s2 j = primary)
    ∧ (stageFails s1 j →
      ∀ s2then : List Json → Except String String,
        extract_keywords s1 s2then j = []) := by
  constructor
  · rintro raw1 primary rfl hparse hfail
    rcases hfail with ⟨e, he⟩ | ⟨raw2, hok, hnone | ⟨v, hv, hnotarr⟩⟩
    · simp [extract_keywords, hparse, he]
    · simp [extract_keywords, hparse, hok, hnone]
    · cases v with
      | arr xs => exact absurd rfl (hnotarr xs)
      | null => simp [extract_keywords, hparse, hok, hv]
      | bool b => simp [extract_keywords, hparse, hok, hv]
      | num n => simp [extract_keywords, hparse, hok, hv]
      | str s => simp [extract_keywords, hparse, hok, hv]
      | obj kvs => simp [extract_keywords, hparse, hok, hv]
  · rintro (⟨e, rfl⟩ | ⟨raw, rfl, hnone | ⟨v, hv, hnotarr⟩⟩) s2then
    · simp [extract_keywords]
    · simp [extract_keywords, hnone]
    · cases v with
      | arr xs => exact absurd rfl (hnotarr xs)
      | null => simp [extract_keywords, hv]
      | bool b => simp [extract_keywords, hv]
      | num n => simp [extract_keywords, hv]
      | str s => simp [extract_keywords, hv]
      | obj kvs => simp [extract_keywords, hv]

/-- Witness for C7 at concrete inputs: a raising Stage 2 after a
successful Stage 1 returns the primary list, and a raising Stage 1
returns the empty list for an arbitrary Stage 2 oracle. -/
theorem extract_keywords_failure_policy_witness :
    extract_keywords (Except.ok "a") (fun _ => Except.error "x")
      (fun _ => some (Json.arr [Json.str "k"])) = [Json.str "k"]
    ∧ extract_keywords (Except.error "b") (fun _ => Except.ok "z")
      (fun _ => some (Json.arr [Json.str "k"])) = [] :=
  ⟨(extract_keywords_failure_policy (Except.ok "a") (fun _ => Except.error "x")
      (fun _ => some (Json.arr [Json.str "k"]))).1 "a" [Json.str "k"] rfl rfl
      (Or.inl ⟨"x", rfl⟩),
   (extract_keywords_failure_policy (Except.error "b") (fun _ => Except.error "q")
      (fun _ => some (Json.arr [Json.str "k"]))).2 (Or.inl ⟨"b", rfl⟩)
      (fun _ => Except.ok "z")⟩

/-- The flat condition list of build_mongo_query has one entry per
keyword and field. -/
theorem flatMap_fields_length (keywords : List Json) :
    (keywords.flatMap (fun kw => fields.map (fun field => RegexCond.mk field kw "i"))).length
      = keywords.length * fields.length := by
  induction keywords with
  | nil => simp
  | cons kw ks ih =>
    simp only [List.flatMap_cons, List.length_append, List.length_map, ih, List.length_cons]
    ring

/-- C5: for every non-empty keyword list (duplicates included),
build_mongo_query yields a disjunction of exactly length-of-terms times
length-of-fields conditions over the fixed 11-element field list, each
condition a case-insensitive regex on one field-and-term pair, and with
every such pair represented. -/
theorem build_mongo_query_shape (keywords : List Json) (h : keywords ≠ []) :
    ∃ conds,
      build_mongo_query keywords = MongoFilter.orFilter conds
      ∧ conds.length = keywords.length * fields.length
      ∧ fields.length = 11
      ∧ (∀ c ∈ conds, c.options = "i" ∧ c.field ∈ fields ∧ c.pattern ∈ keywords)
      ∧ ∀ kw ∈ keywords, ∀ f ∈ fields, RegexCond.mk f kw "i" ∈ conds := by
  refine ⟨keywords.flatMap (fun kw => fields.map (fun field => RegexCond.mk field kw "i")),
    ?_, flatMap_fields_length keywords, rfl, ?_, ?_⟩
  · cases keywords with
    | nil => exact absurd rfl h
    | cons kw ks =>
      simp [build_mongo_query, List.flatMap_cons, fields]
  · intro c hc
    rw [List.mem_flatMap] at hc
    obtain ⟨kw, hkw, hc⟩ := hc
    rw [List.mem_map] at hc
    obtain ⟨f, hf, rfl⟩ := hc
    exact ⟨rfl, hf, hkw⟩
  · intro kw hkw f hf
    rw [List.mem_flatMap]
    exact ⟨kw, hkw, List.mem_map.mpr ⟨f, hf, rfl⟩⟩

/-- Witness for C5 at a concrete one-term input. -/
theorem build_mongo_query_shape_witness :
    ∃ conds,
      build_mongo_query [Json.str "python"] = MongoFilter.orFilter conds
      ∧ conds.length = [Json.str "python"].length * fields.length
      ∧ fields.length = 11
      ∧ (∀ c ∈ conds, c.options = "i" ∧ c.field ∈ fields ∧ c.pattern ∈ [Json.str "python"])
      ∧ ∀ kw ∈ [Json.str "python"], ∀ f ∈ fields, RegexCond.mk f kw "i" ∈ conds :=
  build_mongo_query_shape [Json.str "python"] (by simp)

/-- C6 counterexample: the filter built from zero terms is the empty
filter, and under MongoDB find semantics it matches a candidate record,
even when every individual regex condition is interpreted as matching
nothing. -/
theorem empty_filter_matches_record :
    matchesFilter (fun _ _ => false) (build_mongo_query [])
      [("name", Json.str "Alice")] = true := rfl

/-- C6 amended: build_mongo_query applied to an empty term list yields
the empty filter, and the empty filter matches every candidate record
under MongoDB find semantics (it places no constraint), rather than
matching nothing. -/
theorem empty_filter_matches_everything :
    build_mongo_query [] = MongoFilter.empty
    ∧ ∀ (condMatch : RegexCond → PyDict → Bool) (doc : PyDict),
        matchesFilter condMatch (build_mongo_query []) doc = true :=
  ⟨rfl, fun _ _ => rfl⟩

/-! Orchestrator-level properties of run. -/

/-- The id-stringifying comprehension of search succeeds on every
record list whose records all carry an id key, as MongoDB results do. -/
theorem stringifyIds_total (pyStr : Json → String) :
    ∀ docs : List PyDict, (∀ d ∈ docs, (dictGet? d "_id").isSome) →
      ∃ out, stringifyIds pyStr docs = .ok out := by
  intro docs
  induction docs with
  | nil => exact fun _ => ⟨[], rfl⟩
  | cons d rest ih =>
    intro h
    obtain ⟨idv, hid⟩ := Option.isSome_iff_exists.mp (h d (by simp))
    obtain ⟨tail, htail⟩ := ih (fun x hx => h x (by simp [hx]))
    exact ⟨dictSet d "_id" (Json.str (pyStr idv)) :: tail,
      by simp [stringifyIds, hid, htail]⟩

/-- C2 counterexample: a run whose keyword extraction yields an empty
TermSet and a run whose document store yields an empty candidate list
return one and the same fixed diagnostic string, not two distinct
ones. -/
theorem run_empty_cases_same_diagnostic :
    run "q" (Except.error "boom") (fun _ => Except.error "x") (fun _ => none)
      (fun _ => Except.ok []) (fun _ => "") (fun _ => Except.error "x")
      (fun _ => Except.error "x")
    = run "q" (Except.ok "a") (fun _ => Except.error "x")
      (fun _ => some (Json.arr [Json.str "python"]))
      (fun _ => Except.ok []) (fun _ => "") (fun _ => Except.error "x")
      (fun _ => Except.error "x")
    ∧ run "q" (Except.error "boom") (fun _ => Except.error "x") (fun _ => none)
      (fun _ => Except.ok []) (fun _ => "") (fun _ => Except.error "x")
      (fun _ => Except.error "x")
      = Except.ok "No resumes retrieved for the given query." :=
  ⟨rfl, rfl⟩

/-- C2 amended: an empty TermSet and an empty store result each make
run return the one fixed diagnostic string used for both cases,
"No resumes retrieved for the given query."; the code does not
distinguish the two situations in the value run returns. -/
theorem run_single_diagnostic (q : String) (s1 : Except String String)
    (s2 : List Json → Except String String) (j : String → Option Json)
    (find : MongoFilter → Except String (List PyDict)) (pyStr : Json → String)
    (rc gc : List PyDict → Except String String) :
    (extract_keywords s1 s2 j = [] →
      run q s1 s2 j find pyStr rc gc
        = Except.ok "No resumes retrieved for the given query.")
    ∧ (find (build_mongo_query (extract_keywords s1 s2 j)) = Except.ok [] →
      run q s1 s2 j find pyStr rc gc
        = Except.ok "No resumes retrieved for the given query.") := by
  constructor
  · intro h
    simp [run, search, h]
  · intro h
    by_cases hk : (extract_keywords s1 s2 j).isEmpty
    · simp [run, search, hk]
    · simp [run, search, hk, h, stringifyIds]

/-- Witness for the amended C2 at concrete inputs: one run with a
raising Stage 1 call and one run with an empty store result, both
returning the shared diagnostic. -/
theorem run_single_diagnostic_witness :
    run "q" (Except.error "boom") (fun _ => Except.error "x") (fun _ => none)
      (fun _ => Except.ok []) (fun _ => "") (fun _ => Except.error "x")
      (fun _ => Except.error "x")
      = Except.ok "No resumes retrieved for the given query."
    ∧ run "q" (Except.ok "a") (fun _ => Except.error "x")
      (fun _ => some (Json.arr [Json.str "python"]))
      (fun _ => Except.ok []) (fun _ => "") (fun _ => Except.error "x")
      (fun _ => Except.error "x")
      = Except.ok "No resumes retrieved for the given query." :=
  ⟨(run_single_diagnostic "q" (Except.error "boom") (fun _ => Except.error "x")
      (fun _ => none) (fun _ => Except.ok []) (fun _ => "")
      (fun _ => Except.error "x") (fun _ => Except.error "x")).1 rfl,
   (run_single_diagnostic "q" (Except.ok "a") (fun _ => Except.error "x")
      (fun _ => some (Json.arr [Json.str "python"])) (fun _ => Except.ok [])
      (fun _ => "") (fun _ => Except.error "x") (fun _ => Except.error "x")).2 rfl⟩

/-- C3 counterexample: an exception raised by the document store find
call propagates out of run instead of being converted into a diagnostic
string, so run does not return a string for every query. -/
theorem run_propagates_store_exception :
    run "q" (Except.ok "a") (fun _ => Except.error "x")
      (fun _ => some (Json.arr [Json.str "python"]))
      (fun _ => Except.error "ServerSelectionTimeoutError")
      (fun _ => "") (fun _ => Except.error "x") (fun _ => Except.error "x")
      = Except.error "ServerSelectionTimeoutError" := rfl

/-- C3 amended: run returns a string, raising no exception, whenever
the document store find call succeeds and every returned record carries
an id key (as MongoDB guarantees); failures of the extraction,
reranking and synthesis model calls are all recovered by fallbacks or
converted into diagnostic strings, and only a store exception
propagates out of run. -/
theorem run_total_modulo_store (q : String) (s1 : Except String String)
    (s2 : List Json → Except String String) (j : String → Option Json)
    (find : MongoFilter → Except String (List PyDict)) (pyStr : Json → String)
    (rc gc : List PyDict → Except String String)
    (hfind : ∀ filt, ∃ docs, find filt = Except.ok docs
      ∧ ∀ d ∈ docs, (dictGet? d "_id").isSome) :
    ∃ answer, run q s1 s2 j find pyStr rc gc = Except.ok answer := by
  by_cases hk : (extract_keywords s1 s2 j).isEmpty
  · exact ⟨"No resumes retrieved for the given query.", by simp [run, search, hk]⟩
  · obtain ⟨docs, hdocs, hids⟩ := hfind (build_mongo_query (extract_keywords s1 s2 j))
    obtain ⟨matched, hm⟩ := stringifyIds_total pyStr docs hids
    by_cases hm2 : matched.isEmpty
    · exact ⟨"No resumes retrieved for the given query.",
        by simp [run, search, hk, hdocs, hm, hm2]⟩
    · exact ⟨generate_answer (gc (rerank_resumes (rc matched) j matched)),
        by simp [run, search, hk, hdocs, hm, hm2]⟩

/-- Witness for the amended C3 at a concrete input: with a succeeding
(empty-result) store and every model call raising, run still returns a
string. -/
theorem run_total_modulo_store_witness :
    ∃ answer,
      run "q" (Except.error "x") (fun _ => Except.error "x") (fun _ => none)
        (fun _ => Except.ok []) (fun _ => "") (fun _ => Except.error "x")
        (fun _ => Except.error "x") = Except.ok answer :=
  run_total_modulo_store "q" (Except.error "x") (fun _ => Except.error "x")
    (fun _ => none) (fun _ => Except.ok []) (fun _ => "")
    (fun _ => Except.error "x") (fun _ => Except.error "x")
    (fun _ => ⟨[], rfl, by simp⟩)

/-- C9 counterexample: Stage 1 extraction parses to the empty array,
yet Stage 2 expansion still runs and produces a non-empty TermSet,
after which the document store find call and the answer synthesizer are
both invoked: the run result depends on the store oracle, and with a
non-empty store result it returns the synthesized answer. -/
theorem stage1_empty_still_queries_store :
    (fun s => if s == "e" then some (Json.arr []) else some (Json.arr [Json.str "python"]))
      (clean_llm_response "e") = some (Json.arr [])
    ∧ run "q" (Except.ok "e") (fun _ => Except.ok "p")
      (fun s => if s == "e" then some (Json.arr []) else some (Json.arr [Json.str "python"]))
      (fun _ => Except.ok []) (fun _ => "1") (fun _ => Except.error "r")
      (fun _ => Except.ok "ANSWER")
      = Except.ok "No resumes retrieved for the given query."
    ∧ run "q" (Except.ok "e") (fun _ => Except.ok "p")
      (fun s => if s == "e" then some (Json.arr []) else some (Json.arr [Json.str "python"]))
      (fun _ => Except.ok [[("_id", Json.str "1"), ("name", Json.str "A")]])
      (fun _ => "1") (fun _ => Except.error "r") (fun _ => Except.ok "ANSWER")
      = Except.ok "ANSWER" :=
  ⟨rfl, rfl, rfl⟩

/-- C9 amended: if the extractor output TermSet is empty (rather than
only the Stage 1 primary list), run returns the fixed diagnostic and
its result is independent of the document store, reranker and
synthesizer oracles, so none of them is invoked. -/
theorem run_empty_termset_skips_stages (q : String) (s1 : Except String String)
    (s2 : List Json → Except String String) (j : String → Option Json)
    (pyStr : Json → String)
    (h : extract_keywords s1 s2 j = [])
    (find find2 : MongoFilter → Except String (List PyDict))
    (rc rc2 gc gc2 : List PyDict → Except String String) :
    run q s1 s2 j find pyStr rc gc
      = Except.ok "No resumes retrieved for the given query."
    ∧ run q s1 s2 j find pyStr rc gc = run q s1 s2 j find2 pyStr rc2 gc2 := by
  constructor <;> simp [run, search, h]

/-- Witness for the amended C9 at a concrete input: a raising Stage 1
call yields an empty TermSet and run returns the diagnostic, with two
different store oracles giving identical results. -/
theorem run_empty_termset_skips_stages_witness :
    run "q" (Except.error "x") (fun _ => Except.error "x") (fun _ => none)
      (fun _ => Except.ok []) (fun _ => "") (fun _ => Except.error "x")
      (fun _ => Except.error "x")
      = Except.ok "No resumes retrieved for the given query."
    ∧ run "q" (Except.error "x") (fun _ => Except.error "x") (fun _ => none)
      (fun _ => Except.ok []) (fun _ => "") (fun _ => Except.error "x")
      (fun _ => Except.error "x")
      = run "q" (Except.error "x") (fun _ => Except.error "x") (fun _ => none)
        (fun _ => Except.error "down") (fun _ => "") (fun _ => Except.ok "r")
        (fun _ => Except.ok "g") :=
  run_empty_termset_skips_stages "q" (Except.error "x") (fun _ => Except.error "x")
    (fun _ => none) (fun _ => "") rfl (fun _ => Except.ok [])
    (fun _ => Except.error "down") (fun _ => Except.error "x") (fun _ => Except.ok "r")
    (fun _ => Except.error "x") (fun _ => Except.ok "g")

end HRBot
